import Mathlib

/-!
Verification development for the virtual-kubelet end-to-end test harness
(the lifecycle & stats verification harness of `test/e2e/basic_test.go` and
its workload fixture builders).

The embedding is shallow:
* the telemetry data model (`Summary`, `PodStats`, `PodReference`) and the
  pod model (`Pod`, `Container`, `EnvVar`, `KeySelector`) mirror the fields
  the harness reads from `v1alpha1.Summary` and `v1.Pod`;
* `findPodInPodStats` is a direct translation of the Go correlator;
* each straight-line test scenario is embedded as the list of steps it
  executes, one step constructor per Go statement of interest;
* framework code that is not under `src/` (the dummy-pod builder, the
  watch/wait machinery, the provider under test) is modelled from the spec,
  and every such definition is marked `Modelled from the spec:`.
-/

/-- Identity carried by a per-pod telemetry record
(`summary.Pods[i].PodRef` in the Go code): namespace, name and uid. -/
structure PodReference where
  ns : String
  name : String
  uid : String
  deriving DecidableEq

/-- One per-container usage record (`stats.ContainerStats`); the harness only
ever counts these, so only the container name is carried. -/
structure ContainerStats where
  name : String
  deriving DecidableEq

/-- One per-pod telemetry record (`stats.PodStats`): a pod reference plus the
per-container records. -/
structure PodStats where
  podRef : PodReference
  containers : List ContainerStats
  deriving DecidableEq

/-- Node-level part of the telemetry snapshot (`stats.NodeStats`); the harness
only reads the node name. -/
structure NodeStats where
  nodeName : String
  deriving DecidableEq

/-- A telemetry snapshot (`v1alpha1.Summary`): node stats plus the ordered
slice of per-pod records. -/
structure Summary where
  node : NodeStats
  pods : List PodStats
  deriving DecidableEq

/-- A config-map or secret key selector (`corev1.ConfigMapKeySelector` /
`corev1.SecretKeySelector`): referenced object name, key, and the
`Optional *bool` flag (`none` models a nil pointer). -/
structure KeySelector where
  name : String
  key : String
  optional : Option Bool
  deriving DecidableEq

/-- An environment variable source (`corev1.EnvVarSource`): at most one of a
config-map key reference and a secret key reference. -/
structure EnvVarSource where
  configMapKeyRef : Option KeySelector
  secretKeyRef : Option KeySelector
  deriving DecidableEq

/-- An environment variable (`corev1.EnvVar`) as the fixtures build it:
a name plus an optional value source. -/
structure EnvVar where
  name : String
  valueFrom : Option EnvVarSource
  deriving DecidableEq

/-- A container of a pod spec (`corev1.Container`): name and environment. -/
structure Container where
  name : String
  env : List EnvVar
  deriving DecidableEq

/-- A pod (`v1.Pod`), flattened to the fields the harness reads:
`.Namespace`, `.Name`, `.UID` and `.Spec.Containers`. -/
structure Pod where
  ns : String
  name : String
  uid : String
  containers : List Container
  deriving DecidableEq

/-- The match condition of the Go correlator loop body:
`p.PodRef.Namespace == pod.Namespace && p.PodRef.Name == pod.Name &&
string(p.PodRef.UID) == string(pod.UID)`. -/
def podStatsMatches (p : PodStats) (pod : Pod) : Bool :=
  p.podRef.ns == pod.ns && p.podRef.name == pod.name && p.podRef.uid == pod.uid

/-- The error message built by `fmt.Errorf` in `findPodInPodStats`. -/
def notFoundMsg (pod : Pod) : String :=
  "failed to find pod \"" ++ pod.ns ++ "/" ++ pod.name ++ "\" in the slice of pod stats"

/-- The `for i, p := range summary.Pods` loop of `findPodInPodStats`, with the
running index made explicit.  Go's `(int, error)` return is `Int × Option
String`: a match returns `(i, nil)` and falling off the loop returns
`(-1, fmt.Errorf(...))`. -/
def findPodInPodStatsAux (pod : Pod) : List PodStats → Nat → Int × Option String
  | [], _ => (-1, some (notFoundMsg pod))
  | p :: rest, i =>
    if podStatsMatches p pod then ((i : Int), none)
    else findPodInPodStatsAux pod rest (i + 1)

/-- `findPodInPodStats` (test/e2e/basic_test.go): returns the index of the
specified pod in the `.pods` field of the specified Summary object, or `-1`
together with a not-found error. -/
def findPodInPodStats (summary : Summary) (pod : Pod) : Int × Option String :=
  findPodInPodStatsAux pod summary.pods 0

lemma findPodInPodStatsAux_no_match (pod : Pod) (l : List PodStats) (k : Nat)
    (h : ∀ p ∈ l, podStatsMatches p pod = false) :
    findPodInPodStatsAux pod l k = (-1, some (notFoundMsg pod)) := by
  induction l generalizing k with
  | nil => rfl
  | cons p rest ih =>
    have hp : podStatsMatches p pod = false := h p (List.mem_cons_self p rest)
    simp only [findPodInPodStatsAux, hp, Bool.false_eq_true, if_false]
    exact ih _ (fun q hq => h q (List.mem_cons_of_mem p hq))

lemma findPodInPodStatsAux_first_match (pod : Pod) (l₁ : List PodStats)
    (x : PodStats) (l₂ : List PodStats) (k : Nat)
    (h₁ : ∀ p ∈ l₁, podStatsMatches p pod = false)
    (hx : podStatsMatches x pod = true) :
    findPodInPodStatsAux pod (l₁ ++ x :: l₂) k = (((k + l₁.length : Nat) : Int), none) := by
  induction l₁ generalizing k with
  | nil => simp [findPodInPodStatsAux, hx]
  | cons p rest ih =>
    have hp : podStatsMatches p pod = false := h₁ p (List.mem_cons_self p rest)
    simp only [List.cons_append, findPodInPodStatsAux, hp, Bool.false_eq_true, if_false]
    have h2 := ih (k + 1) (fun q hq => h₁ q (List.mem_cons_of_mem p hq))
    have h3 : k + 1 + rest.length = k + (p :: rest).length := by
      simp only [List.length_cons]; omega
    rw [h3] at h2
    exact h2

lemma findPodInPodStatsAux_shape (pod : Pod) (l : List PodStats) (k : Nat) :
    (∃ n, ∃ hn : n < l.length,
        findPodInPodStatsAux pod l k = (((k + n : Nat) : Int), none) ∧
        podStatsMatches (l.get ⟨n, hn⟩) pod = true ∧
        ∀ p ∈ l.take n, podStatsMatches p pod = false) ∨
    (findPodInPodStatsAux pod l k = (-1, some (notFoundMsg pod)) ∧
        ∀ p ∈ l, podStatsMatches p pod = false) := by
  induction l generalizing k with
  | nil => exact Or.inr ⟨rfl, by simp⟩
  | cons p rest ih =>
    by_cases hp : podStatsMatches p pod = true
    · refine Or.inl ⟨0, by simp, ?_, by simpa using hp, by simp⟩
      simp [findPodInPodStatsAux, hp]
    · have hp' : podStatsMatches p pod = false := by
        cases hpp : podStatsMatches p pod with
        | false => rfl
        | true => exact absurd hpp hp
      rcases ih (k + 1) with ⟨n, hn, heq, hget, hpre⟩ | ⟨heq, hall⟩
      · refine Or.inl ⟨n + 1, by simpa using Nat.succ_lt_succ hn, ?_, ?_, ?_⟩
        · simp only [findPodInPodStatsAux, hp', Bool.false_eq_true, if_false]
          rw [heq]
          have : k + 1 + n = k + (n + 1) := by omega
          rw [this]
        · simpa using hget
        · intro q hq
          rcases List.mem_cons.mp (by simpa [List.take] using hq) with hq0 | hq1
          · exact hq0 ▸ hp'
          · exact hpre q hq1
      · refine Or.inr ⟨?_, ?_⟩
        · simp only [findPodInPodStatsAux, hp', Bool.false_eq_true, if_false]
          exact heq
        · intro q hq
          rcases List.mem_cons.mp hq with hq0 | hq1
          · exact hq0 ▸ hp'
          · exact hall q hq1

lemma findPodInPodStatsAux_error_iff (pod : Pod) (l : List PodStats) (k : Nat) :
    (findPodInPodStatsAux pod l k).2.isSome = true ↔
      ∀ p ∈ l, podStatsMatches p pod = false := by
  constructor
  · intro h
    rcases findPodInPodStatsAux_shape pod l k with ⟨n, hn, heq, _, _⟩ | ⟨_, hall⟩
    · rw [heq] at h; simp at h
    · exact hall
  · intro h
    rw [findPodInPodStatsAux_no_match pod l k h]
    rfl

/-!
Workload fixture builders.  `CreatePodWithMandatoryConfigMaps`,
`CreatePodWithOptionalConfigMaps`, `CreatePodWithOptionalSecrets`,
`CreatePodWithMandatorySecrets` and `CreatePodWithEnv` are translated from
the framework fixture file under `src/`.  The underlying dummy-pod builder
is framework code not under `src/` and is modelled from the spec.
-/

/-- Modelled from the spec: the framework builder
`CreateDummyPodObjectWithPrefix(prefix, containerNames...)` is not under
`src/`.  Per the spec (4.1, `buildBasic`) it returns a pod whose name is the
prefix followed by a fresh random suffix, with one container per given
container name and no environment entries.  The random suffix and the
namespace are explicit parameters here; the uid is empty until the external
API assigns one at creation. -/
def CreateDummyPodObject (pfx suffix podNs : String) (containerNames : List String) : Pod :=
  { ns := podNs
    name := pfx ++ suffix
    uid := ""
    containers := containerNames.map (fun n => { name := n, env := [] }) }

/-- Sets the environment of the first container, as the Go statement
`pod.Spec.Containers[0].Env = env` does. -/
def setFirstContainerEnv (env : List EnvVar) : List Container → List Container
  | [] => []
  | c :: rest => { c with env := env } :: rest

/-- `CreatePodWithEnv` (framework fixture file): builds the dummy pod with
prefix "nginxtest" and single container "foo", then sets the given
environment on that container. -/
def CreatePodWithEnv (suffix podNs : String) (env : List EnvVar) : Pod :=
  let pod := CreateDummyPodObject "nginxtest" suffix podNs ["foo"]
  { pod with containers := setFirstContainerEnv env pod.containers }

/-- `CreatePodWithMandatoryConfigMaps` (framework fixture file): two
config-map key references, "Configname0"/"key0" with `Optional = &optional`
(true) and "Configname1"/"key1" with `Optional = &mandatory` (false). -/
def CreatePodWithMandatoryConfigMaps (suffix podNs : String) : Pod :=
  let mandatory : Bool := false
  let optional : Bool := true
  let env : List EnvVar :=
    [ { name := "zero"
        valueFrom := some
          { configMapKeyRef := some
              { name := "Configname0", key := "key0", optional := some optional }
            secretKeyRef := none } }
    , { name := "one"
        valueFrom := some
          { configMapKeyRef := some
              { name := "Configname1", key := "key1", optional := some mandatory }
            secretKeyRef := none } } ]
  CreatePodWithEnv suffix podNs env

/-- `CreatePodWithOptionalConfigMaps` (framework fixture file): one
config-map key reference "configname0"/"key" with `Optional = &optional`
(true). -/
def CreatePodWithOptionalConfigMaps (suffix podNs : String) : Pod :=
  let optional : Bool := true
  let env : List EnvVar :=
    [ { name := "ENVIRONMENTVARIABLE"
        valueFrom := some
          { configMapKeyRef := some
              { name := "configname0", key := "key", optional := some optional }
            secretKeyRef := none } } ]
  CreatePodWithEnv suffix podNs env

/-- `CreatePodWithOptionalSecrets` (framework fixture file): one secret key
reference "secretname0"/"key" with `Optional = &optional` (true). -/
def CreatePodWithOptionalSecrets (suffix podNs : String) : Pod :=
  let optional : Bool := true
  let env : List EnvVar :=
    [ { name := "ENVIRONMENTVARIABLE"
        valueFrom := some
          { configMapKeyRef := none
            secretKeyRef := some
              { name := "secretname0", key := "key", optional := some optional } } } ]
  CreatePodWithEnv suffix podNs env

/-- `CreatePodWithMandatorySecrets` (framework fixture file): two secret key
references, "secretname0"/"secretkey0" with `Optional = &optional` (true)
and "secretname1"/"secretkey1" with `Optional = &mandatory` (false). -/
def CreatePodWithMandatorySecrets (suffix podNs : String) : Pod :=
  let mandatory : Bool := false
  let optional : Bool := true
  let env : List EnvVar :=
    [ { name := "zero"
        valueFrom := some
          { configMapKeyRef := none
            secretKeyRef := some
              { name := "secretname0", key := "secretkey0", optional := some optional } } }
    , { name := "one"
        valueFrom := some
          { configMapKeyRef := none
            secretKeyRef := some
              { name := "secretname1", key := "secretkey1", optional := some mandatory } } } ]
  CreatePodWithEnv suffix podNs env

/-!
Provider model.  The provider under test (and its readiness/telemetry
behaviour) is not part of this repository, so it is modelled from the spec.
-/

/-- The external reference store, as a list of (object name, key) entries
that exist.  The harness deliberately does not pre-create the entries its
fixtures reference. -/
abbrev ExternalStore : Type := List (String × String)

/-- Whether a key selector resolves against the store: an entry with the
referenced object name and key exists. -/
def resolvableRef (store : ExternalStore) (sel : KeySelector) : Bool :=
  store.any (fun e => e.1 == sel.name && e.2 == sel.key)

/-- Whether a key selector is marked optional (`Optional` pointer set and
pointing at true). -/
def isOptionalRef (sel : KeySelector) : Bool :=
  match sel.optional with
  | some b => b
  | none => false

/-- The key selectors referenced by one environment variable. -/
def keyRefs (e : EnvVar) : List KeySelector :=
  match e.valueFrom with
  | none => []
  | some vf =>
    (match vf.configMapKeyRef with | some s => [s] | none => []) ++
    (match vf.secretKeyRef with | some s => [s] | none => [])

/-- All external key references of a pod, across containers and environment
variables. -/
def podEnvRefs (p : Pod) : List KeySelector :=
  (p.containers.map (fun c => (c.env.map keyRefs).flatten)).flatten

/-- Whether the pod carries at least one non-optional external reference
that does not resolve against the store. -/
def podHasUnresolvedMandatoryRef (store : ExternalStore) (p : Pod) : Bool :=
  (podEnvRefs p).any (fun sel => !resolvableRef store sel && !isOptionalRef sel)

/-- Modelled from the spec: the provider under test is not under `src/`.
Per the spec (3, WorkloadSpec invariant), the provider refuses to
materialize a workload with any unresolvable non-optional external
reference — it never reaches ready — and a workload whose unresolvable
references are all optional still reaches ready. -/
def providerReachesReady (store : ExternalStore) (p : Pod) : Bool :=
  !podHasUnresolvedMandatoryRef store p

/-- The telemetry record a pod generates: its identity plus one container
stats record per container (full container count). -/
def podStatsOf (p : Pod) : PodStats :=
  { podRef := { ns := p.ns, name := p.name, uid := p.uid }
    containers := p.containers.map (fun c => { name := c.name }) }

/-- Modelled from the spec: the provider's telemetry endpoint is not under
`src/`.  Per the spec (3 and 8 P3/P4), a snapshot contains a record, with
full container count, for exactly the live workloads that reached ready;
a workload that never reached ready, or was deleted (absent from the live
list), appears in no snapshot. -/
def specTelemetry (store : ExternalStore) (nodeName : String) (pods : List Pod) : Summary :=
  { node := { nodeName := nodeName }
    pods := (pods.filter (providerReachesReady store)).map podStatsOf }

lemma podStatsMatches_podStatsOf_self (p : Pod) :
    podStatsMatches (podStatsOf p) p = true := by
  simp [podStatsMatches, podStatsOf]

lemma find_specTelemetry_absent (store : ExternalStore) (nodeName : String)
    (pods : List Pod) (p : Pod)
    (h : ∀ q ∈ pods, providerReachesReady store q = true →
        podStatsMatches (podStatsOf q) p = false) :
    findPodInPodStats (specTelemetry store nodeName pods) p = (-1, some (notFoundMsg p)) := by
  apply findPodInPodStatsAux_no_match
  intro r hr
  simp only [specTelemetry, List.mem_map, List.mem_filter] at hr
  obtain ⟨q, ⟨hq, hready⟩, rfl⟩ := hr
  exact h q hq hready

lemma find_specTelemetry_single (store : ExternalStore) (nodeName : String)
    (p : Pod) (h : providerReachesReady store p = true) :
    findPodInPodStats (specTelemetry store nodeName [p]) p = (0, none) := by
  simp [findPodInPodStats, specTelemetry, h, findPodInPodStatsAux,
    podStatsMatches_podStatsOf_self]

/-!
Scenario embeddings.  Each Go test function is straight-line code; it is
embedded as the list of steps it executes, one constructor per statement of
interest, in source order.  Error checks that are uniformly attached to a
call in the source (`t.Fatal` after `WaitUntilPodReady`, `GetStatsSummary`,
`DeletePod`, the watch result) are folded into the step itself; the check of
the `CreatePod` error is present in some scenarios and absent in others, so
it is a step of its own (`fatalIfCreateErr`).
-/

/-- Which fixture a scenario submits: the dummy builder with a name prefix
and container names, or one of the four env-reference fixtures. -/
inductive Fixture where
  | dummyPod (pfx : String) (containerNames : List String)
  | optionalSecrets
  | mandatorySecrets
  | optionalConfigMaps
  | mandatoryConfigMaps
  deriving DecidableEq

/-- The pod built by a fixture, given the random name suffix and the
namespace the external API places it in. -/
def Fixture.build (suffix podNs : String) : Fixture → Pod
  | .dummyPod pfx names => CreateDummyPodObject pfx suffix podNs names
  | .optionalSecrets => CreatePodWithOptionalSecrets suffix podNs
  | .mandatorySecrets => CreatePodWithMandatorySecrets suffix podNs
  | .optionalConfigMaps => CreatePodWithOptionalConfigMaps suffix podNs
  | .mandatoryConfigMaps => CreatePodWithMandatoryConfigMaps suffix podNs

/-- One statement of a scenario.  `podId` numbers the pods a scenario
creates in order of creation (`0` for the first, `1` for the second); the
scenarios under `src/` use only ids 0 and 1.  `startDeletionWatch` is the
`go func() { ... WaitUntilPodDeleted ... }()` statement: per the spec (4.2)
the observation channel is established when that detached task starts, i.e.
at this step's position in the sequence. -/
inductive Step where
  | createPod (podId : Nat) (fixture : Fixture)
  | fatalIfCreateErr (podId : Nat)
  | deferDeleteTolerateNotFound (podId : Nat)
  | waitUntilPodReady (podId : Nat)
  | getStatsSummary
  | assertNodeName
  | assertPodFound (podId : Nat)
  | assertContainerCount (podId : Nat)
  | assertPodNotFound (podId : Nat)
  | startDeletionWatch (podId : Nat)
  | deletePod (podId : Nat)
  | deletePodImmediately (podId : Nat)
  | awaitDeletionObserved (podId : Nat)
  | sleepGracePeriod
  deriving DecidableEq

/-- `deleteGracePeriodForProvider` (test/e2e/basic_test.go), in
milliseconds: the fixed reaction grace window slept by `sleepGracePeriod`. -/
def deleteGracePeriodForProvider : Nat := 100

/-- `TestGetStatsSummary` (test/e2e/basic_test.go). -/
def TestGetStatsSummary_steps : List Step :=
  [ .createPod 0 (.dummyPod "nginx-0-" ["foo", "bar", "baz"])
  , .fatalIfCreateErr 0
  , .deferDeleteTolerateNotFound 0
  , .waitUntilPodReady 0
  , .getStatsSummary
  , .assertNodeName
  , .assertPodFound 0
  , .assertContainerCount 0 ]

/-- `TestPodLifecycle` (test/e2e/basic_test.go): pod0 = "nginx-0-" prefix,
pod1 = "nginx-1-" prefix; graceful delete of pod1, then immediate (force)
delete of pod0, each watched from a detached task started beforehand. -/
def TestPodLifecycle_steps : List Step :=
  [ .createPod 0 (.dummyPod "nginx-0-" ["foo"])
  , .fatalIfCreateErr 0
  , .deferDeleteTolerateNotFound 0
  , .createPod 1 (.dummyPod "nginx-1-" ["bar"])
  , .fatalIfCreateErr 1
  , .deferDeleteTolerateNotFound 1
  , .waitUntilPodReady 0
  , .waitUntilPodReady 1
  , .getStatsSummary
  , .assertPodFound 0
  , .assertPodFound 1
  , .startDeletionWatch 1
  , .deletePod 1
  , .awaitDeletionObserved 1
  , .sleepGracePeriod
  , .getStatsSummary
  , .assertPodNotFound 1
  , .startDeletionWatch 0
  , .deletePodImmediately 0
  , .awaitDeletionObserved 0
  , .sleepGracePeriod
  , .getStatsSummary
  , .assertPodNotFound 0 ]

/-- `TestOptionalSecrets` (test/e2e/basic_test.go).  Note: the `CreatePod`
error is never checked, and the scenario ends right after observing the
deletion. -/
def TestOptionalSecrets_steps : List Step :=
  [ .createPod 0 .optionalSecrets
  , .deferDeleteTolerateNotFound 0
  , .waitUntilPodReady 0
  , .getStatsSummary
  , .assertPodFound 0
  , .startDeletionWatch 0
  , .deletePod 0
  , .awaitDeletionObserved 0 ]

/-- `TestMandatorySecrets` (test/e2e/basic_test.go).  Note: the `CreatePod`
error is never checked, no deferred teardown deletion is registered, and the
inline `DeletePod` is fatal on error. -/
def TestMandatorySecrets_steps : List Step :=
  [ .createPod 0 .mandatorySecrets
  , .getStatsSummary
  , .assertPodNotFound 0
  , .startDeletionWatch 0
  , .deletePod 0
  , .awaitDeletionObserved 0 ]

/-- `TestOptionalConfigMaps` (test/e2e/basic_test.go). -/
def TestOptionalConfigMaps_steps : List Step :=
  [ .createPod 0 .optionalConfigMaps
  , .deferDeleteTolerateNotFound 0
  , .waitUntilPodReady 0
  , .getStatsSummary
  , .assertPodFound 0
  , .startDeletionWatch 0
  , .deletePod 0
  , .awaitDeletionObserved 0 ]

/-- `TestMandatoryConfigMaps` (test/e2e/basic_test.go): no teardown and no
deletion at all. -/
def TestMandatoryConfigMaps_steps : List Step :=
  [ .createPod 0 .mandatoryConfigMaps
  , .getStatsSummary
  , .assertPodNotFound 0 ]

/-- All six scenarios of the test file, in source order. -/
def allScenarios : List (List Step) :=
  [ TestGetStatsSummary_steps
  , TestPodLifecycle_steps
  , TestOptionalSecrets_steps
  , TestMandatorySecrets_steps
  , TestOptionalConfigMaps_steps
  , TestMandatoryConfigMaps_steps ]

/-- The steps strictly after the first occurrence of `s` (empty when `s`
does not occur). -/
def stepsAfterFirst (s : Step) : List Step → List Step
  | [] => []
  | x :: rest => if x = s then rest else stepsAfterFirst s rest

/-- The steps strictly before the first occurrence of `s`. -/
def stepsBeforeFirst (s : Step) : List Step → List Step
  | [] => []
  | x :: rest => if x = s then [] else x :: stepsBeforeFirst s rest

/-- Checks that every `awaitDeletionObserved k` in the list is immediately
followed by the post-deletion check: sleep the grace window, fetch a fresh
snapshot, assert the deleted pod not found. -/
def postDeletionCheckFollows (k : Nat) : List Step → Bool
  | [] => true
  | Step.awaitDeletionObserved k' :: rest =>
    if k' == k then
      match rest with
      | Step.sleepGracePeriod :: Step.getStatsSummary :: Step.assertPodNotFound k'' :: rest' =>
        k'' == k && postDeletionCheckFollows k rest'
      | _ => false
    else postDeletionCheckFollows k rest
  | _ :: rest => postDeletionCheckFollows k rest

/-- Checks that every delete request for pod `k` (graceful or immediate) is
preceded, strictly earlier in the sequence, by the start of the deletion
watch for pod `k`.  `seenWatch` records whether such a watch start has been
passed. -/
def deleteStepsAfterWatch (k : Nat) (seenWatch : Bool) : List Step → Bool
  | [] => true
  | Step.startDeletionWatch k' :: rest =>
    deleteStepsAfterWatch k (seenWatch || k' == k) rest
  | Step.deletePod k' :: rest =>
    (!(k' == k) || seenWatch) && deleteStepsAfterWatch k seenWatch rest
  | Step.deletePodImmediately k' :: rest =>
    (!(k' == k) || seenWatch) && deleteStepsAfterWatch k seenWatch rest
  | _ :: rest => deleteStepsAfterWatch k seenWatch rest

/-- Whether the scenario waits for the deletion of pod `k` to be observed. -/
def scenarioWaitsForDeletion (steps : List Step) (k : Nat) : Bool :=
  steps.contains (Step.awaitDeletionObserved k)

/-- The race-free ordering of a scenario: for every pod whose deletion the
scenario waits on, the deletion watch is started strictly before any delete
request for that pod is issued.  The scenarios use only pod ids 0 and 1. -/
def raceFreeOrdering (steps : List Step) : Bool :=
  [0, 1].all (fun k =>
    !(scenarioWaitsForDeletion steps k) || deleteStepsAfterWatch k false steps)

/-- Executes a scenario under the assumption that every operation succeeds
except that `CreatePod` returns a non-nil error when `createFails` is true;
returns the steps that actually execute.  `fatalIfCreateErr` aborts the
scenario (`t.Fatal`) when the creation failed; no other step reacts to the
creation failure. -/
def runScenario (createFails : Bool) : List Step → List Step
  | [] => []
  | Step.fatalIfCreateErr k :: rest =>
    if createFails then [Step.fatalIfCreateErr k]
    else Step.fatalIfCreateErr k :: runScenario createFails rest
  | s :: rest => s :: runScenario createFails rest

/-- Outcome of the Go `DeletePod` call made by a deferred teardown. -/
inductive DeleteResult where
  | ok
  | notFound
  | otherErr
  deriving DecidableEq

/-- How a teardown handler reports: silently, via the non-fatal `t.Error`,
or via the fatal `t.Fatal`. -/
inductive TeardownOutcome where
  | silent
  | tError
  | tFatal
  deriving DecidableEq

/-- The body of the deferred teardown closure, from the source:
`if err := f.DeletePod(...); err != nil && !apierrors.IsNotFound(err) {
t.Error(err) }`. -/
def deferredDeleteHandler : DeleteResult → TeardownOutcome
  | .ok => .silent
  | .notFound => .silent
  | .otherErr => .tError

/-!
Delete-wait channel model.  `WaitUntilPodDeleted` and the watch machinery
are framework code not under `src/`; they are modelled from the spec.
-/

/-- One delete-wait interaction: the (discrete) times at which the
observation channel is established and the delete request is issued, and the
provider's response latency.  The terminal Deleted event occurs at
`deleteTime + latency`; `latency = 0` is the near-zero-latency case. -/
structure DeleteWaitTrace where
  watchTime : Nat
  deleteTime : Nat
  latency : Nat
  deriving DecidableEq

/-- The time at which the provider emits the terminal Deleted event. -/
def deletedEventTime (tr : DeleteWaitTrace) : Nat :=
  tr.deleteTime + tr.latency

/-- Result of draining the observation channel. -/
inductive WaitResult where
  | observedDeleted
  | timedOut
  deriving DecidableEq

/-- Modelled from the spec: the observation channel buffers every event
occurring at or after its establishment (4.2, 6); the wait observes the
terminal Deleted event exactly when that event was buffered, and otherwise
the event was missed and the wait times out. -/
def waitUntilPodDeletedResult (tr : DeleteWaitTrace) : WaitResult :=
  if tr.watchTime ≤ deletedEventTime tr then WaitResult.observedDeleted
  else WaitResult.timedOut

/-!
Concrete data used by counterexamples and witnesses.
-/

/-- A concrete pod as recreated after a delete: same namespace and name as
`recOldUid` below, different uid. -/
def podA : Pod :=
  { ns := "default", name := "nginx-0-abc", uid := "uid-a"
    containers := [{ name := "foo", env := [] }] }

/-- The telemetry record of `podA`. -/
def recA : PodStats := podStatsOf podA

/-- A telemetry record agreeing with `podA` on namespace and name but
carrying a different uid (a deleted, same-named predecessor). -/
def recOldUid : PodStats :=
  { podRef := { ns := "default", name := "nginx-0-abc", uid := "uid-old" }
    containers := [] }

/-- A snapshot containing only the stale-uid record. -/
def summaryOldUid : Summary :=
  { node := { nodeName := "vkubelet" }, pods := [recOldUid] }

/-- A snapshot containing only `podA`'s record. -/
def summaryA : Summary :=
  { node := { nodeName := "vkubelet" }, pods := [recA] }

/-- A snapshot with a stale-uid record before and after `podA`'s record. -/
def summaryTwo : Summary :=
  { node := { nodeName := "vkubelet" }, pods := [recOldUid, recA, recOldUid] }

/-- A snapshot with no pod records at all. -/
def emptySummary : Summary :=
  { node := { nodeName := "vkubelet" }, pods := [] }

/-- C2: `findPodInPodStats` reports a match only when the record's
namespace, name, and uid all equal the pod's (first conjunct), and a
snapshot whose only record agrees on namespace and name but differs on uid
yields the not-found result (second conjunct). -/
theorem C2_match_requires_all_three_fields :
    (∀ (s : Summary) (pod : Pod) (n : Nat) (hn : n < s.pods.length),
        findPodInPodStats s pod = ((n : Int), none) →
        (s.pods.get ⟨n, hn⟩).podRef.ns = pod.ns ∧
        (s.pods.get ⟨n, hn⟩).podRef.name = pod.name ∧
        (s.pods.get ⟨n, hn⟩).podRef.uid = pod.uid) ∧
    findPodInPodStats summaryOldUid podA = (-1, some (notFoundMsg podA)) := by
  constructor
  · intro s pod n hn heq
    rcases findPodInPodStatsAux_shape pod s.pods 0 with ⟨m, hm, heq', hmatch, _⟩ | ⟨heq', _⟩
    · rw [findPodInPodStats, heq'] at heq
      have hnm : n = m := by
        have := congrArg Prod.fst heq
        simp at this
        omega
      subst hnm
      have hget : s.pods.get ⟨n, hn⟩ = s.pods.get ⟨n, hm⟩ := rfl
      rw [hget]
      have hh := hmatch
      simp only [podStatsMatches, Bool.and_eq_true, beq_iff_eq] at hh
      exact ⟨hh.1.1, hh.1.2, hh.2⟩
    · rw [findPodInPodStats, heq'] at heq
      simp at heq
  · decide

/-- Closed witness for C2: on a snapshot whose record does match `podA` on
all three fields, the correlator returns index 0 and the first conjunct of
C2 yields the field equalities there. -/
theorem C2_match_requires_all_three_fields_witness :
    (summaryA.pods.get ⟨0, by decide⟩).podRef.ns = podA.ns ∧
    (summaryA.pods.get ⟨0, by decide⟩).podRef.name = podA.name ∧
    (summaryA.pods.get ⟨0, by decide⟩).podRef.uid = podA.uid :=
  C2_match_requires_all_three_fields.1 summaryA podA 0 (by decide) (by decide)

/-- C3: for a snapshot and pod with no matching record, the correlator
returns the not-found value `(-1, message)` as an ordinary result of a total
function — it does not panic or abort the test — and the callers decide
what absence means: `TestPodLifecycle` treats absence after deletion as the
expected outcome (`assertPodNotFound`), while `TestGetStatsSummary` treats
absence as the failing outcome (`assertPodFound`). -/
theorem C3_absence_is_normal_outcome :
    (∀ (s : Summary) (pod : Pod),
        (∀ p ∈ s.pods, podStatsMatches p pod = false) →
        findPodInPodStats s pod = (-1, some (notFoundMsg pod))) ∧
    Step.assertPodNotFound 1 ∈ TestPodLifecycle_steps ∧
    Step.assertPodFound 0 ∈ TestGetStatsSummary_steps := by
  refine ⟨?_, by decide, by decide⟩
  intro s pod h
  exact findPodInPodStatsAux_no_match pod s.pods 0 h

/-- Closed witness for C3: the empty snapshot has no matching record, and
C3 yields the not-found result for `podA` there. -/
theorem C3_absence_is_normal_outcome_witness :
    findPodInPodStats emptySummary podA = (-1, some (notFoundMsg podA)) :=
  C3_absence_is_normal_outcome.1 emptySummary podA (by simp [emptySummary])

/-- C10: `findPodInPodStats` returns the index of the first matching record
with a nil error — a result independent of everything after that record
(first conjunct, where the tail `l₂` is arbitrary) — returns `(-1, error)`
exactly when no record matches (second conjunct), and never returns anything
but one of those two shapes (third conjunct). -/
theorem C10_first_match_characterization :
    (∀ (s : Summary) (pod : Pod) (l₁ : List PodStats) (x : PodStats) (l₂ : List PodStats),
        s.pods = l₁ ++ x :: l₂ →
        (∀ p ∈ l₁, podStatsMatches p pod = false) →
        podStatsMatches x pod = true →
        findPodInPodStats s pod = ((l₁.length : Int), none)) ∧
    (∀ (s : Summary) (pod : Pod),
        findPodInPodStats s pod = (-1, some (notFoundMsg pod)) ↔
          ∀ p ∈ s.pods, podStatsMatches p pod = false) ∧
    (∀ (s : Summary) (pod : Pod),
        (∃ n, ∃ hn : n < s.pods.length,
            findPodInPodStats s pod = ((n : Int), none) ∧
            podStatsMatches (s.pods.get ⟨n, hn⟩) pod = true ∧
            ∀ p ∈ s.pods.take n, podStatsMatches p pod = false) ∨
        (findPodInPodStats s pod = (-1, some (notFoundMsg pod)) ∧
            ∀ p ∈ s.pods, podStatsMatches p pod = false)) := by
  refine ⟨?_, ?_, ?_⟩
  · intro s pod l₁ x l₂ hs h₁ hx
    rw [findPodInPodStats, hs, findPodInPodStatsAux_first_match pod l₁ x l₂ 0 h₁ hx]
    simp
  · intro s pod
    constructor
    · intro h
      have := (findPodInPodStatsAux_error_iff pod s.pods 0).mp
      rw [findPodInPodStats] at h
      rw [h] at this
      exact this rfl
    · intro h
      exact findPodInPodStatsAux_no_match pod s.pods 0 h
  · intro s pod
    rcases findPodInPodStatsAux_shape pod s.pods 0 with ⟨n, hn, heq, hget, hpre⟩ | ⟨heq, hall⟩
    · exact Or.inl ⟨n, hn, by rw [findPodInPodStats, heq]; simp, hget, hpre⟩
    · exact Or.inr ⟨heq, hall⟩

/-- Closed witness for C10: in a snapshot whose records are a stale-uid
record, `podA`'s record, and a trailing stale-uid record, the first conjunct
of C10 (applied with that decomposition) evaluates the correlator to index
1 with nil error. -/
theorem C10_first_match_characterization_witness :
    findPodInPodStats summaryTwo podA = ((1 : Int), none) := by
  have h := C10_first_match_characterization.1 summaryTwo podA
    [recOldUid] recA [recOldUid] (by rfl) (by decide) (by decide)
  simpa using h

/-!
Claim theorems for the scenario-level and modelled-provider claims.
-/

/-- C1: every scenario that waits for deletion of a pod starts the deletion
watch (establishing the observation channel, per the spec's reading of the
detached task) strictly before it issues the delete request (first
conjunct, checked over all six scenarios); and in the modelled channel
semantics, whenever the channel is established strictly before the delete
request, the terminal Deleted event is observed — the wait does not time
out — for every provider response latency, including zero (second
conjunct). -/
theorem C1_race_free_delete_observation :
    allScenarios.all raceFreeOrdering = true ∧
    ∀ tr : DeleteWaitTrace, tr.watchTime < tr.deleteTime →
      waitUntilPodDeletedResult tr = WaitResult.observedDeleted := by
  refine ⟨by decide, ?_⟩
  intro tr h
  unfold waitUntilPodDeletedResult deletedEventTime
  rw [if_pos (by omega : tr.watchTime ≤ tr.deleteTime + tr.latency)]

/-- Closed witness for C1: the trace that establishes the watch at time 0,
issues the delete at time 1 and gets a zero-latency provider response
satisfies the ordering hypothesis and observes the Deleted event. -/
theorem C1_race_free_delete_observation_witness :
    (0 : Nat) < 1 ∧
    waitUntilPodDeletedResult { watchTime := 0, deleteTime := 1, latency := 0 } =
      WaitResult.observedDeleted :=
  ⟨by decide,
   C1_race_free_delete_observation.2
     { watchTime := 0, deleteTime := 1, latency := 0 } (by decide)⟩

/-- C4 counterexample: `TestOptionalSecrets` observes the deletion of its
pod but neither sleeps the reaction grace window nor asserts the pod absent
from a fresh snapshot afterwards — so the claim's "in every scenario" is
false. -/
theorem C4_counterexample_no_post_deletion_check :
    Step.awaitDeletionObserved 0 ∈ TestOptionalSecrets_steps ∧
    Step.sleepGracePeriod ∉ TestOptionalSecrets_steps ∧
    Step.assertPodNotFound 0 ∉ TestOptionalSecrets_steps := by decide

/-- C4 (amended): only the two-pod lifecycle scenario performs the
post-deletion check; there, each observed deletion is immediately followed
by sleeping the fixed grace window `deleteGracePeriodForProvider`, fetching
a fresh snapshot and asserting the deleted pod not found, while the secret
and config-map scenarios execute nothing after observing deletion. -/
theorem C4_amended_post_deletion_check :
    postDeletionCheckFollows 0 TestPodLifecycle_steps = true ∧
    postDeletionCheckFollows 1 TestPodLifecycle_steps = true ∧
    Step.awaitDeletionObserved 0 ∈ TestPodLifecycle_steps ∧
    Step.awaitDeletionObserved 1 ∈ TestPodLifecycle_steps ∧
    deleteGracePeriodForProvider = 100 ∧
    stepsAfterFirst (Step.awaitDeletionObserved 0) TestOptionalSecrets_steps = [] ∧
    stepsAfterFirst (Step.awaitDeletionObserved 0) TestMandatorySecrets_steps = [] ∧
    stepsAfterFirst (Step.awaitDeletionObserved 0) TestOptionalConfigMaps_steps = [] := by
  decide

/-- C5 counterexample: in `TestPodLifecycle`, after the graceful deletion of
pod1 is observed, the still-live sibling pod0 is never again asserted
present — no `assertPodFound 0` occurs after that point — so the claim's
"is asserted to remain present at that point" is false. -/
theorem C5_counterexample_sibling_not_reasserted :
    Step.awaitDeletionObserved 1 ∈ TestPodLifecycle_steps ∧
    Step.assertPodFound 0 ∉
      stepsAfterFirst (Step.awaitDeletionObserved 1) TestPodLifecycle_steps := by decide

/-- C5 (amended): in the two-workload lifecycle scenario, after graceful
deletion of pod1 and after immediate deletion of pod0, the snapshot taken
after the reaction grace window is asserted to not contain the deleted pod;
both pods' presence is asserted only in the snapshot taken before any
deletion, and the sibling is not re-asserted afterwards. -/
theorem C5_amended_post_deletion_absence :
    Step.deletePod 1 ∈ TestPodLifecycle_steps ∧
    Step.deletePodImmediately 0 ∈ TestPodLifecycle_steps ∧
    postDeletionCheckFollows 1 TestPodLifecycle_steps = true ∧
    postDeletionCheckFollows 0 TestPodLifecycle_steps = true ∧
    Step.assertPodFound 0 ∈
      stepsBeforeFirst (Step.startDeletionWatch 1) TestPodLifecycle_steps ∧
    Step.assertPodFound 1 ∈
      stepsBeforeFirst (Step.startDeletionWatch 1) TestPodLifecycle_steps := by decide

/-- C6: the mandatory-secret and mandatory-configmap fixtures each carry a
non-optional reference ("secretname1"/"secretkey1", "Configname1"/"key1");
whenever the store does not resolve it, the modelled provider never lets
the workload reach ready (first two conjuncts); a workload that never
reached ready appears in no modelled telemetry snapshot whose live pods
have distinct identities (third conjunct); and both mandatory scenarios
assert the pod absent from the snapshot they fetch (last conjuncts). -/
theorem C6_mandatory_refs_rejected :
    (∀ suffix podNs store,
        resolvableRef store ⟨"secretname1", "secretkey1", some false⟩ = false →
        providerReachesReady store (CreatePodWithMandatorySecrets suffix podNs) = false) ∧
    (∀ suffix podNs store,
        resolvableRef store ⟨"Configname1", "key1", some false⟩ = false →
        providerReachesReady store (CreatePodWithMandatoryConfigMaps suffix podNs) = false) ∧
    (∀ (store : ExternalStore) (nodeName : String) (pods : List Pod) (p : Pod),
        providerReachesReady store p = false →
        (∀ q ∈ pods, podStatsMatches (podStatsOf q) p = true → q = p) →
        findPodInPodStats (specTelemetry store nodeName pods) p =
          (-1, some (notFoundMsg p))) ∧
    Step.createPod 0 Fixture.mandatorySecrets ∈ TestMandatorySecrets_steps ∧
    Step.assertPodNotFound 0 ∈ TestMandatorySecrets_steps ∧
    Step.createPod 0 Fixture.mandatoryConfigMaps ∈ TestMandatoryConfigMaps_steps ∧
    Step.assertPodNotFound 0 ∈ TestMandatoryConfigMaps_steps := by
  refine ⟨?_, ?_, ?_, by decide, by decide, by decide, by decide⟩
  · intro suffix podNs store h
    simp [providerReachesReady, podHasUnresolvedMandatoryRef, podEnvRefs,
      CreatePodWithMandatorySecrets, CreatePodWithEnv, CreateDummyPodObject,
      setFirstContainerEnv, keyRefs, isOptionalRef, h]
  · intro suffix podNs store h
    simp [providerReachesReady, podHasUnresolvedMandatoryRef, podEnvRefs,
      CreatePodWithMandatoryConfigMaps, CreatePodWithEnv, CreateDummyPodObject,
      setFirstContainerEnv, keyRefs, isOptionalRef, h]
  · intro store nodeName pods p hready huniq
    apply find_specTelemetry_absent
    intro q hq hqready
    cases hm : podStatsMatches (podStatsOf q) p with
    | false => rfl
    | true =>
      rw [huniq q hq hm] at hqready
      rw [hqready] at hready
      cases hready

/-- Closed witness for C6: with the empty store (the harness pre-creates
nothing), both mandatory fixtures fail to reach ready, by the first two
conjuncts of C6. -/
theorem C6_mandatory_refs_rejected_witness :
    providerReachesReady [] (CreatePodWithMandatorySecrets "x" "default") = false ∧
    providerReachesReady [] (CreatePodWithMandatoryConfigMaps "x" "default") = false :=
  ⟨C6_mandatory_refs_rejected.1 "x" "default" [] (by decide),
   C6_mandatory_refs_rejected.2.1 "x" "default" [] (by decide)⟩

/-- C7 counterexample: neither `TestOptionalSecrets` nor
`TestOptionalConfigMaps` asserts the container count of the created pod (the
count assertion exists only in `TestGetStatsSummary`) — so the claim's "the
corresponding scenarios assert ... that container count" is false. -/
theorem C7_counterexample_no_count_assertion :
    Step.assertContainerCount 0 ∉ TestOptionalSecrets_steps ∧
    Step.assertContainerCount 0 ∉ TestOptionalConfigMaps_steps ∧
    Step.assertContainerCount 0 ∈ TestGetStatsSummary_steps := by decide

/-- C7 (amended): a workload whose only unresolved external references are
marked optional reaches ready under the modelled provider for every store
(first two conjuncts), appears in the modelled telemetry with its full
container count (next two conjuncts), and the optional-secret and
optional-configmap scenarios assert readiness and presence — but not the
container count. -/
theorem C7_amended_optional_refs_tolerated :
    (∀ suffix podNs store,
        providerReachesReady store (CreatePodWithOptionalSecrets suffix podNs) = true) ∧
    (∀ suffix podNs store,
        providerReachesReady store (CreatePodWithOptionalConfigMaps suffix podNs) = true) ∧
    (∀ suffix podNs store nodeName,
        findPodInPodStats
          (specTelemetry store nodeName [CreatePodWithOptionalSecrets suffix podNs])
          (CreatePodWithOptionalSecrets suffix podNs) = (0, none)) ∧
    (∀ suffix podNs store nodeName,
        (specTelemetry store nodeName
            [CreatePodWithOptionalSecrets suffix podNs]).pods.map
          (fun r => r.containers.length) =
          [(CreatePodWithOptionalSecrets suffix podNs).containers.length]) ∧
    Step.waitUntilPodReady 0 ∈ TestOptionalSecrets_steps ∧
    Step.assertPodFound 0 ∈ TestOptionalSecrets_steps ∧
    Step.waitUntilPodReady 0 ∈ TestOptionalConfigMaps_steps ∧
    Step.assertPodFound 0 ∈ TestOptionalConfigMaps_steps := by
  have hready : ∀ suffix podNs store,
      providerReachesReady store (CreatePodWithOptionalSecrets suffix podNs) = true := by
    intro suffix podNs store
    simp [providerReachesReady, podHasUnresolvedMandatoryRef, podEnvRefs,
      CreatePodWithOptionalSecrets, CreatePodWithEnv, CreateDummyPodObject,
      setFirstContainerEnv, keyRefs, isOptionalRef]
  refine ⟨hready, ?_, ?_, ?_, by decide, by decide, by decide, by decide⟩
  · intro suffix podNs store
    simp [providerReachesReady, podHasUnresolvedMandatoryRef, podEnvRefs,
      CreatePodWithOptionalConfigMaps, CreatePodWithEnv, CreateDummyPodObject,
      setFirstContainerEnv, keyRefs, isOptionalRef]
  · intro suffix podNs store nodeName
    exact find_specTelemetry_single store nodeName _ (hready suffix podNs store)
  · intro suffix podNs store nodeName
    simp [specTelemetry, hready suffix podNs store, podStatsOf]

/-- C8: the code evaluated at the failing input where `CreatePod` returns a
non-nil error: `TestGetStatsSummary` (and `TestPodLifecycle`) abort at the
submission step as the claim requires, but the optional/mandatory secret
and config-map scenarios never check that error and keep executing their
remaining steps — contradicting "for every scenario ... aborts immediately
at that step and executes no further steps". -/
theorem C8_submission_error_not_always_fatal :
    runScenario true TestGetStatsSummary_steps =
      [Step.createPod 0 (Fixture.dummyPod "nginx-0-" ["foo", "bar", "baz"]),
       Step.fatalIfCreateErr 0] ∧
    runScenario true TestPodLifecycle_steps =
      [Step.createPod 0 (Fixture.dummyPod "nginx-0-" ["foo"]),
       Step.fatalIfCreateErr 0] ∧
    Step.waitUntilPodReady 0 ∈ runScenario true TestOptionalSecrets_steps ∧
    Step.getStatsSummary ∈ runScenario true TestMandatorySecrets_steps ∧
    Step.waitUntilPodReady 0 ∈ runScenario true TestOptionalConfigMaps_steps ∧
    Step.getStatsSummary ∈ runScenario true TestMandatoryConfigMaps_steps := by decide

/-- C9 counterexample: `TestMandatorySecrets` and `TestMandatoryConfigMaps`
register no deferred teardown deletion at all — so the claim's "every
scenario registers a deferred best-effort deletion" is false. -/
theorem C9_counterexample_no_teardown_registered :
    Step.deferDeleteTolerateNotFound 0 ∉ TestMandatorySecrets_steps ∧
    Step.deferDeleteTolerateNotFound 0 ∉ TestMandatoryConfigMaps_steps := by decide

/-- C9 (amended): the four scenarios that do register a deferred teardown
deletion (`TestGetStatsSummary`, `TestPodLifecycle` for both pods,
`TestOptionalSecrets`, `TestOptionalConfigMaps`) use a handler that
tolerates a not-found error silently as success and reports any other
deletion failure via the non-fatal `t.Error`, never fatally; the two
mandatory-reference scenarios register no deferred deletion. -/
theorem C9_amended_teardown_best_effort :
    Step.deferDeleteTolerateNotFound 0 ∈ TestGetStatsSummary_steps ∧
    Step.deferDeleteTolerateNotFound 0 ∈ TestPodLifecycle_steps ∧
    Step.deferDeleteTolerateNotFound 1 ∈ TestPodLifecycle_steps ∧
    Step.deferDeleteTolerateNotFound 0 ∈ TestOptionalSecrets_steps ∧
    Step.deferDeleteTolerateNotFound 0 ∈ TestOptionalConfigMaps_steps ∧
    deferredDeleteHandler DeleteResult.notFound = TeardownOutcome.silent ∧
    (∀ r, deferredDeleteHandler r ≠ TeardownOutcome.tFatal) ∧
    Step.deferDeleteTolerateNotFound 0 ∉ TestMandatorySecrets_steps ∧
    Step.deferDeleteTolerateNotFound 0 ∉ TestMandatoryConfigMaps_steps := by
  refine ⟨by decide, by decide, by decide, by decide, by decide, rfl, ?_,
    by decide, by decide⟩
  intro r
  cases r <;> simp [deferredDeleteHandler]
